import Mathlib

/-!
Verification of the snake-ebpf telemetry-to-control pipeline.

The definitions below are a shallow embedding of the kernel-resident
tracer (the BPF C handlers: counters, event-bucket map, rate estimator)
and of the userspace control logic in main.go (tick-interval and
spawn-interval computation, metric sampling, kprobe attachment).
Machine integers are modelled as Nat (u64) and Int (Go int64 durations)
with explicit reduction modulo 2^64 at every operation the source
performs on a fixed-width integer.
-/

/-- Modulus of an unsigned 64-bit integer. -/
def U64 : Nat := 18446744073709551616

/-- Go int64 wraparound: normalises an integer into [-2^63, 2^63).
Go's signed integer arithmetic (time.Duration is int64) wraps on
overflow with two's-complement semantics. -/
def wrap64 (n : Int) : Int := (n + 9223372036854775808) % 18446744073709551616 - 9223372036854775808

/-- State of the kernel-resident tracer: the five per-class u64
counters, the u64 rate slot, and the recent_events hash map
(unix-second key, u64 count; max_entries = 100).  The six scalar slots
are BPF array maps of size 1, so lookups on them always succeed. -/
structure TracerState where
  execve : Nat
  fileOps : Nat
  network : Nat
  process : Nat
  ctxSwitch : Nat
  rate : Nat
  buckets : List (Nat × Nat)
deriving Repr, DecidableEq

/-- All maps initialised to zero / empty, as done by loadEBPF in
main.go (it writes 0 into every counter slot at load time). -/
def initialState : TracerState :=
  { execve := 0, fileOps := 0, network := 0, process := 0,
    ctxSwitch := 0, rate := 0, buckets := [] }

/-- bpf_map_lookup_elem on the recent_events hash map. -/
def bucketLookup : List (Nat × Nat) → Nat → Option Nat
  | [], _ => none
  | (k, v) :: rest, key => if k = key then some v else bucketLookup rest key

/-- In-place overwrite of the value stored under a key (models the
atomic increment writing through the looked-up pointer). -/
def bucketReplace : List (Nat × Nat) → Nat → Nat → List (Nat × Nat)
  | [], _, _ => []
  | (k, v) :: rest, key, val =>
    if k = key then (key, val) :: rest else (k, v) :: bucketReplace rest key val

/-- bpf_map_delete_elem on the recent_events hash map: removing an
absent key is a no-op. -/
def bucketDelete : List (Nat × Nat) → Nat → List (Nat × Nat)
  | [], _ => []
  | (k, v) :: rest, key => if k = key then rest else (k, v) :: bucketDelete rest key

/-- increment_event_bucket (snake.bpf.c): compute the current unix
second from the ns clock, atomically increment the bucket for that
second, creating it with value 1 if absent; insertion into a full map
(100 live entries) fails silently, so the event is not counted. -/
def increment_event_bucket (nowNs : Nat) (s : TracerState) : TracerState :=
  let t := nowNs / 1000000000
  match bucketLookup s.buckets t with
  | some c => { s with buckets := bucketReplace s.buckets t ((c + 1) % U64) }
  | none =>
    if s.buckets.length < 100 then { s with buckets := (t, 1) :: s.buckets }
    else s

/-- update_event_rate (snake.bpf.c): set the rate slot to the bucket
count for the current second (0 if absent), then best-effort delete
the bucket keyed current second - 10 (u64 subtraction). -/
def update_event_rate (nowNs : Nat) (s : TracerState) : TracerState :=
  let t := nowNs / 1000000000
  let newRate :=
    match bucketLookup s.buckets t with
    | some c => c
    | none => 0
  let old := (t + (U64 - 10)) % U64
  { s with rate := newRate, buckets := bucketDelete s.buckets old }

/-- handle_execve (snake.bpf.c): increment the execve counter, feed the
event bucket, then refresh the rate estimate.  Only this probe path
calls update_event_rate. -/
def handle_execve (nowNs : Nat) (s : TracerState) : TracerState :=
  let s1 := { s with execve := (s.execve + 1) % U64 }
  update_event_rate nowNs (increment_event_bucket nowNs s1)

/-- handle_file_open (snake.bpf.c): increment the file-ops counter and
feed the event bucket (no rate update). -/
def handle_file_open (nowNs : Nat) (s : TracerState) : TracerState :=
  let s1 := { s with fileOps := (s.fileOps + 1) % U64 }
  increment_event_bucket nowNs s1

/-- handle_network_connect (snake.bpf.c): increment the network counter
and feed the event bucket (no rate update). -/
def handle_network_connect (nowNs : Nat) (s : TracerState) : TracerState :=
  let s1 := { s with network := (s.network + 1) % U64 }
  increment_event_bucket nowNs s1

/-- handle_process_fork (snake.bpf.c): increment the process counter
and feed the event bucket (no rate update). -/
def handle_process_fork (nowNs : Nat) (s : TracerState) : TracerState :=
  let s1 := { s with process := (s.process + 1) % U64 }
  increment_event_bucket nowNs s1

/-- handle_context_switch (snake.bpf.c): throttled increment — when the
counter's current value is an exact multiple of 100, add 100 in one
step, otherwise add 1.  It touches neither the bucket map nor the rate
slot. -/
def handle_context_switch (s : TracerState) : TracerState :=
  if s.ctxSwitch % 100 = 0 then { s with ctxSwitch := (s.ctxSwitch + 100) % U64 }
  else { s with ctxSwitch := (s.ctxSwitch + 1) % U64 }

/-- N successive firings of the context-switch probe. -/
def fireCtxN : Nat → TracerState → TracerState
  | 0, s => s
  | n + 1, s => handle_context_switch (fireCtxN n s)

/-- N successive firings of the exec probe (all at clock value 0; the
clock only affects the bucket map, not the counter). -/
def fireExecveN : Nat → TracerState → TracerState
  | 0, s => s
  | n + 1, s => handle_execve 0 (fireExecveN n s)

/-! Userspace control function (main.go).  Go durations are int64
nanoseconds; a uint64 counter is converted by reinterpreting its bits
as int64 and every multiplication/subtraction wraps modulo 2^64. -/

/-- time.Microsecond in nanoseconds. -/
def NS_PER_US : Int := 1000

/-- time.Millisecond in nanoseconds. -/
def NS_PER_MS : Int := 1000000

/-- time.Second in nanoseconds. -/
def NS_PER_S : Int := 1000000000

/-- POLL_INTERVAL = 350 ms, used as baseInterval. -/
def baseInterval : Int := 350 * NS_PER_MS

/-- scoreSpeedReduction := time.Duration(game.score) * 1 * time.Millisecond. -/
def scoreSpeedReduction (score : Nat) : Int :=
  wrap64 (wrap64 (wrap64 score * 1) * NS_PER_MS)

/-- execveSpeedReduction := time.Duration(execveCount) * 500 * time.Microsecond,
capped afterwards at 30 ms. -/
def execveSpeedReduction (c : Nat) : Int :=
  let r := wrap64 (wrap64 (wrap64 c * 500) * NS_PER_US)
  if 30 * NS_PER_MS < r then 30 * NS_PER_MS else r

/-- processSpeedReduction := time.Duration(processCount/3) * time.Millisecond,
capped afterwards at 25 ms (the division is u64 division). -/
def processSpeedReduction (c : Nat) : Int :=
  let r := wrap64 (wrap64 ((c / 3 : Nat)) * NS_PER_MS)
  if 25 * NS_PER_MS < r then 25 * NS_PER_MS else r

/-- rateSpeedReduction := time.Duration(eventRate) * 1 * time.Millisecond,
capped afterwards at 30 ms. -/
def rateSpeedReduction (c : Nat) : Int :=
  let r := wrap64 (wrap64 (wrap64 c * 1) * NS_PER_MS)
  if 30 * NS_PER_MS < r then 30 * NS_PER_MS else r

/-- loadSpeedReduction := time.Duration(contextSwitchCount/1500) * time.Millisecond,
capped afterwards at 15 ms. -/
def loadSpeedReduction (c : Nat) : Int :=
  let r := wrap64 (wrap64 ((c / 1500 : Nat)) * NS_PER_MS)
  if 15 * NS_PER_MS < r then 15 * NS_PER_MS else r

/-- newInterval := baseInterval - scoreSpeedReduction - execveSpeedReduction
- processSpeedReduction - rateSpeedReduction - loadSpeedReduction, then
floored at 100 ms.  main.go applies no ceiling. -/
def newTickInterval (score ex pr ra cs : Nat) : Int :=
  let n :=
    wrap64 (wrap64 (wrap64 (wrap64 (wrap64 (baseInterval - scoreSpeedReduction score)
      - execveSpeedReduction ex) - processSpeedReduction pr)
      - rateSpeedReduction ra) - loadSpeedReduction cs)
  if n < 100 * NS_PER_MS then 100 * NS_PER_MS else n

/-- fileOpsBonus := time.Duration(fileOpsCount/50) * 100 * time.Millisecond,
capped afterwards at 3 s. -/
def fileOpsBonus (fo : Nat) : Int :=
  let b := wrap64 (wrap64 (wrap64 ((fo / 50 : Nat)) * 100) * NS_PER_MS)
  if 3 * NS_PER_S < b then 3 * NS_PER_S else b

/-- spawnInterval := 15 s - fileOpsBonus, floored at 5 s.  Computed in
main.go only inside the fileOpsCount > 0 branch. -/
def spawnIntervalOf (fo : Nat) : Int :=
  let si := wrap64 (15 * NS_PER_S - fileOpsBonus fo)
  if si < 5 * NS_PER_S then 5 * NS_PER_S else si

/-- The timed spawn decision of one control cycle: guarded by
fileOpsCount > 0; inside the guard it fires when the time elapsed since
the last food spawn exceeds the computed spawn interval. -/
def spawnDecision (fo : Nat) (sinceLastSpawn : Int) : Bool :=
  if 0 < fo then
    if spawnIntervalOf fo < sinceLastSpawn then true else false
  else false

/-! Kprobe attachment (attachAllKprobes in main.go). -/

/-- The five traced event classes. -/
inductive EventClass where
  | execve
  | fileOpen
  | network
  | fork
  | ctxSwitch
deriving DecidableEq, Repr

/-- The order in which attachAllKprobes visits the event classes. -/
def classList : List EventClass :=
  [EventClass.execve, EventClass.fileOpen, EventClass.network,
   EventClass.fork, EventClass.ctxSwitch]

/-- The ordered kernel-symbol candidate list each class tries, exactly
as listed in attachAllKprobes. -/
def probeCandidates : EventClass → List String
  | EventClass.execve =>
      ["sys_enter_execve", "__x64_sys_execve", "__arm64_sys_execve",
       "__s390x_sys_execve", "__x86_sys_execve"]
  | EventClass.fileOpen => ["do_sys_openat2", "do_sys_open", "__x64_sys_openat"]
  | EventClass.network => ["tcp_v4_connect", "tcp_v6_connect"]
  | EventClass.fork => ["_do_fork", "kernel_clone", "__x64_sys_clone"]
  | EventClass.ctxSwitch => ["__schedule"]

/-- The per-class candidate loop: link.Kprobe is tried on each name in
order and the loop breaks at the first success (ok models which symbol
names attach successfully on the running kernel). -/
def firstAttachable (ok : String → Bool) : List String → Option String
  | [] => none
  | n :: rest => if ok n then some n else firstAttachable ok rest

/-- attachAllKprobes: every class whose program is present in the
collection contributes at most one link (its first successful
candidate); classes with no success are skipped.  The call fails (nil
links plus an error in main.go, modelled as none) exactly when the
collected link list is empty. -/
def attachAllKprobes (present : EventClass → Bool) (ok : String → Bool) :
    Option (List String) :=
  let links := classList.filterMap fun c =>
    if present c then firstAttachable ok (probeCandidates c) else none
  if links = [] then none else some links

/-! Telemetry sampling (the ticker branch of the main loop). -/

/-- The userspace Sampled Metrics snapshot (eBPFMetrics in main.go). -/
structure SampledMetrics where
  execveCount : Nat
  fileOpsCount : Nat
  networkCount : Nat
  processCount : Nat
  contextSwitchCount : Nat
  eventRate : Nat
  lastUpdate : Nat
deriving Repr, DecidableEq

/-- The outcome of the six independent map reads of one cycle: none
models a nil map or a failed Lookup (whose error main.go discards,
leaving the zero-initialised field untouched). -/
structure MapReads where
  execve : Option Nat
  fileOps : Option Nat
  network : Option Nat
  process : Option Nat
  ctxSwitch : Option Nat
  rate : Option Nat

/-- One cycle's snapshot: metrics := eBPFMetrics{lastUpdate: time.Now()}
starts from an all-zero struct, and each Lookup only overwrites its
field when it succeeds. -/
def sampleMetrics (now : Nat) (rd : MapReads) : SampledMetrics :=
  { execveCount := (rd.execve).getD 0
    fileOpsCount := (rd.fileOps).getD 0
    networkCount := (rd.network).getD 0
    processCount := (rd.process).getD 0
    contextSwitchCount := (rd.ctxSwitch).getD 0
    eventRate := (rd.rate).getD 0
    lastUpdate := now }

/-- The assignment game.ebpfMetrics = metrics: the snapshot installed
for the cycle is built from this cycle's reads alone; the previous
cycle's snapshot is discarded wholesale. -/
def telemetryStep (_prev : SampledMetrics) (now : Nat) (rd : MapReads) :
    SampledMetrics :=
  sampleMetrics now rd

/-! Helper lemmas. -/

/-- wrap64 is the identity on values already in the int64 range. -/
theorem wrap64_eq_self (n : Int) (h1 : -9223372036854775808 ≤ n)
    (h2 : n < 9223372036854775808) : wrap64 n = n := by
  unfold wrap64
  have h3 : 0 ≤ n + 9223372036854775808 := by omega
  have h4 : n + 9223372036854775808 < 18446744073709551616 := by omega
  rw [Int.emod_eq_of_lt h3 h4]
  omega

/-- Nanoseconds-to-seconds division inverts an exact multiplication. -/
theorem ns_to_sec (t : Nat) : t * 1000000000 / 1000000000 = t := by omega

/-- increment_event_bucket changes only the bucket map. -/
theorem inc_bucket_fields (n : Nat) (s : TracerState) :
    (increment_event_bucket n s).execve = s.execve ∧
    (increment_event_bucket n s).fileOps = s.fileOps ∧
    (increment_event_bucket n s).network = s.network ∧
    (increment_event_bucket n s).process = s.process ∧
    (increment_event_bucket n s).ctxSwitch = s.ctxSwitch ∧
    (increment_event_bucket n s).rate = s.rate := by
  simp only [increment_event_bucket]
  cases h : bucketLookup s.buckets (n / 1000000000)
  · simp only [h]
    split <;> simp
  · simp [h]

/-- update_event_rate changes only the rate slot and the bucket map. -/
theorem upd_rate_fields (n : Nat) (s : TracerState) :
    (update_event_rate n s).execve = s.execve ∧
    (update_event_rate n s).fileOps = s.fileOps ∧
    (update_event_rate n s).network = s.network ∧
    (update_event_rate n s).process = s.process ∧
    (update_event_rate n s).ctxSwitch = s.ctxSwitch :=
  ⟨rfl, rfl, rfl, rfl, rfl⟩

/-- The execve counter law of the exec probe. -/
theorem handle_execve_counter (t : Nat) (s : TracerState) :
    (handle_execve t s).execve = (s.execve + 1) % U64 := by
  unfold handle_execve
  rw [(upd_rate_fields _ _).1, (inc_bucket_fields _ _).1]

/-- Unfolding lemma for fireCtxN at a successor (usable on large
literals without kernel iteration). -/
theorem fireCtxN_succ (n : Nat) (s : TracerState) :
    fireCtxN (n + 1) s = handle_context_switch (fireCtxN n s) := rfl

/-- Unfolding lemma for fireExecveN at a successor. -/
theorem fireExecveN_succ (n : Nat) (s : TracerState) :
    fireExecveN (n + 1) s = handle_execve 0 (fireExecveN n s) := rfl

/-- Closed form of the exec counter: N firings from 0 leave N mod 2^64. -/
theorem execve_closed_form (N : Nat) :
    (fireExecveN N initialState).execve = N % U64 := by
  induction N with
  | zero => simp [fireExecveN, initialState, U64]
  | succ n ih =>
    rw [fireExecveN_succ, handle_execve_counter, ih]
    rw [show U64 = 18446744073709551616 from rfl]
    omega

/-- Closed form of the context-switch counter before 64-bit wrap: every
firing takes the add-100 branch, so N firings from 0 leave 100*N. -/
theorem ctx_closed_form (N : Nat) (h : 100 * N < U64) :
    (fireCtxN N initialState).ctxSwitch = 100 * N := by
  induction N with
  | zero => rfl
  | succ n ih =>
    have hn : 100 * n < U64 := by omega
    have hv := ih hn
    rw [fireCtxN_succ]
    unfold handle_context_switch
    rw [hv, if_pos (Nat.mul_mod_right 100 n)]
    show (100 * n + 100) % U64 = 100 * (n + 1)
    have hlt : 100 * n + 100 < U64 := by omega
    rw [Nat.mod_eq_of_lt hlt]
    ring

/-- Exact value and range of the score reduction when no int64 overflow
occurs (note: the score factor has no cap in main.go). -/
theorem scoreRed_range (score : Nat) (h : score * 1000000 < 9223372036854775808) :
    scoreSpeedReduction score = (score : Int) * 1000000 ∧
    0 ≤ scoreSpeedReduction score ∧
    scoreSpeedReduction score < 9223372036854775808 := by
  have hsc : (score : Int) < 9223372036854775808 := by exact_mod_cast (by omega : score < 9223372036854775808)
  have hprod : (score : Int) * 1000000 < 9223372036854775808 := by exact_mod_cast h
  unfold scoreSpeedReduction NS_PER_MS
  rw [wrap64_eq_self (score : Int) (by omega) hsc, mul_one,
      wrap64_eq_self ((score : Int)) (by omega) hsc,
      wrap64_eq_self _ (by omega) hprod]
  refine ⟨rfl, by omega, hprod⟩

/-- Range of the execve reduction in the overflow-free regime. -/
theorem execRed_range (c : Nat) (h : c * 500000 < 9223372036854775808) :
    0 ≤ execveSpeedReduction c ∧ execveSpeedReduction c ≤ 30000000 := by
  have hc : (c : Int) < 9223372036854775808 := by exact_mod_cast (by omega : c < 9223372036854775808)
  have h500 : (c : Int) * 500 < 9223372036854775808 := by exact_mod_cast (by omega : c * 500 < 9223372036854775808)
  have hprod : (c : Int) * 500 * 1000 < 9223372036854775808 := by
    have : (c : Int) * 500000 < 9223372036854775808 := by exact_mod_cast h
    linarith
  unfold execveSpeedReduction NS_PER_US NS_PER_MS
  rw [wrap64_eq_self (c : Int) (by omega) hc,
      wrap64_eq_self _ (by omega) h500,
      wrap64_eq_self _ (by omega) hprod]
  dsimp only
  split <;> omega

/-- Range of the process reduction in the overflow-free regime. -/
theorem processRed_range (c : Nat) (h : c / 3 * 1000000 < 9223372036854775808) :
    0 ≤ processSpeedReduction c ∧ processSpeedReduction c ≤ 25000000 := by
  have hq : ((c / 3 : Nat) : Int) < 9223372036854775808 := by exact_mod_cast (by omega : c / 3 < 9223372036854775808)
  have hprod : ((c / 3 : Nat) : Int) * 1000000 < 9223372036854775808 := by exact_mod_cast h
  unfold processSpeedReduction NS_PER_MS
  rw [wrap64_eq_self _ (by omega) hq,
      wrap64_eq_self _ (by omega) hprod]
  dsimp only
  split <;> omega

/-- Range of the event-rate reduction in the overflow-free regime. -/
theorem rateRed_range (c : Nat) (h : c * 1000000 < 9223372036854775808) :
    0 ≤ rateSpeedReduction c ∧ rateSpeedReduction c ≤ 30000000 := by
  have hc : (c : Int) < 9223372036854775808 := by exact_mod_cast (by omega : c < 9223372036854775808)
  have hprod : (c : Int) * 1000000 < 9223372036854775808 := by exact_mod_cast h
  unfold rateSpeedReduction NS_PER_MS
  rw [wrap64_eq_self (c : Int) (by omega) hc, mul_one,
      wrap64_eq_self ((c : Int)) (by omega) hc,
      wrap64_eq_self _ (by omega) hprod]
  dsimp only
  split <;> omega

/-- Range of the context-switch load reduction in the overflow-free
regime. -/
theorem loadRed_range (c : Nat) (h : c / 1500 * 1000000 < 9223372036854775808) :
    0 ≤ loadSpeedReduction c ∧ loadSpeedReduction c ≤ 15000000 := by
  have hq : ((c / 1500 : Nat) : Int) < 9223372036854775808 := by exact_mod_cast (by omega : c / 1500 < 9223372036854775808)
  have hprod : ((c / 1500 : Nat) : Int) * 1000000 < 9223372036854775808 := by exact_mod_cast h
  unfold loadSpeedReduction NS_PER_MS
  rw [wrap64_eq_self _ (by omega) hq,
      wrap64_eq_self _ (by omega) hprod]
  dsimp only
  split <;> omega

/-- Range of the spawn-interval bonus in the overflow-free regime. -/
theorem fileOpsBonus_range (fo : Nat) (h : fo / 50 * 100000000 < 9223372036854775808) :
    0 ≤ fileOpsBonus fo ∧ fileOpsBonus fo ≤ 3000000000 := by
  have hq : ((fo / 50 : Nat) : Int) < 9223372036854775808 := by exact_mod_cast (by omega : fo / 50 < 9223372036854775808)
  have h100 : ((fo / 50 : Nat) : Int) * 100 < 9223372036854775808 := by exact_mod_cast (by omega : fo / 50 * 100 < 9223372036854775808)
  have hprod : ((fo / 50 : Nat) : Int) * 100 * 1000000 < 9223372036854775808 := by
    have : ((fo / 50 : Nat) : Int) * 100000000 < 9223372036854775808 := by exact_mod_cast h
    linarith
  unfold fileOpsBonus NS_PER_MS NS_PER_S
  rw [wrap64_eq_self _ (by omega) hq,
      wrap64_eq_self _ (by omega) h100,
      wrap64_eq_self _ (by omega) hprod]
  dsimp only
  split <;> omega

/-- The candidate loop reports no link exactly when every candidate
fails to attach. -/
theorem firstAttachable_eq_none (ok : String → Bool) (l : List String) :
    firstAttachable ok l = none ↔ ∀ n ∈ l, ok n = false := by
  induction l with
  | nil => simp [firstAttachable]
  | cons a rest ih =>
    unfold firstAttachable
    by_cases h : ok a
    · simp [h]
    · simp [h, ih]

/-- A bound link is a successful candidate and everything listed before
it failed. -/
theorem firstAttachable_eq_some (ok : String → Bool) (l : List String) (n : String)
    (h : firstAttachable ok l = some n) :
    ok n = true ∧ ∃ l1 l2, l = l1 ++ n :: l2 ∧ ∀ m ∈ l1, ok m = false := by
  induction l with
  | nil => simp [firstAttachable] at h
  | cons a rest ih =>
    unfold firstAttachable at h
    by_cases ha : ok a
    · rw [if_pos ha] at h
      have : a = n := Option.some.inj h
      subst this
      exact ⟨ha, [], rest, rfl, by simp⟩
    · rw [if_neg ha] at h
      obtain ⟨hok, l1, l2, heq, hall⟩ := ih h
      refine ⟨hok, a :: l1, l2, by rw [heq]; rfl, ?_⟩
      intro m hm
      rcases List.mem_cons.mp hm with hma | hml
      · subst hma
        simpa [Bool.not_eq_true] using ha
      · exact hall m hml

/-- filterMap only depends on the values of its function on the list. -/
theorem filterMap_agree {α β : Type} (f g : α → Option β) (l : List α)
    (h : ∀ a ∈ l, f a = g a) : l.filterMap f = l.filterMap g := by
  induction l with
  | nil => rfl
  | cons a rest ih =>
    rw [List.filterMap_cons, List.filterMap_cons, h a (by simp),
        ih (fun x hx => h x (by simp [hx]))]

/-- filterMap misses everything exactly when the function rejects every
element. -/
theorem filterMap_nil_iff {α β : Type} (f : α → Option β) (l : List α) :
    l.filterMap f = [] ↔ ∀ a ∈ l, f a = none := by
  induction l with
  | nil => simp
  | cons a rest ih =>
    rw [List.filterMap_cons]
    cases h : f a
    · simp [h, ih]
    · simp [h]

/-- classList enumerates every event class. -/
theorem mem_classList (c : EventClass) : c ∈ classList := by
  cases c <;> simp [classList]

/-! Claim theorems. -/

/-- Claim C3: for every value of each underlying metric (any uint64 and
beyond), each capped factor's contribution to the tick-interval
reduction never exceeds its stated cap (execve 30 ms, process 25 ms,
rate 30 ms, context-switch 15 ms); in particular execCount = 10,000,000
contributes exactly 30 ms. -/
theorem factor_caps_hold (ex pr ra cs : Nat) :
    execveSpeedReduction ex ≤ 30000000 ∧
    processSpeedReduction pr ≤ 25000000 ∧
    rateSpeedReduction ra ≤ 30000000 ∧
    loadSpeedReduction cs ≤ 15000000 ∧
    execveSpeedReduction 10000000 = 30000000 := by
  refine ⟨?_, ?_, ?_, ?_, ?_⟩
  · unfold execveSpeedReduction NS_PER_US NS_PER_MS
    dsimp only
    split <;> omega
  · unfold processSpeedReduction NS_PER_MS
    dsimp only
    split <;> omega
  · unfold rateSpeedReduction NS_PER_MS
    dsimp only
    split <;> omega
  · unfold loadSpeedReduction NS_PER_MS
    dsimp only
    split <;> omega
  · decide

/-- Claim C5: only the exec-probe path updates the rate slot — the
file-open, network-connect and process-fork probes leave it unchanged,
and the context-switch probe leaves both the rate slot and the
event-bucket map unchanged. -/
theorem rate_frame_non_exec_probes (t : Nat) (s : TracerState) :
    (handle_file_open t s).rate = s.rate ∧
    (handle_network_connect t s).rate = s.rate ∧
    (handle_process_fork t s).rate = s.rate ∧
    (handle_context_switch s).rate = s.rate ∧
    (handle_context_switch s).buckets = s.buckets := by
  refine ⟨?_, ?_, ?_, ?_, ?_⟩
  · exact (inc_bucket_fields t { s with fileOps := (s.fileOps + 1) % U64 }).2.2.2.2.2
  · exact (inc_bucket_fields t { s with network := (s.network + 1) % U64 }).2.2.2.2.2
  · exact (inc_bucket_fields t { s with process := (s.process + 1) % U64 }).2.2.2.2.2
  · unfold handle_context_switch
    split <;> rfl
  · unfold handle_context_switch
    split <;> rfl

/-- Claim C6: in every control cycle whose sampled fileOpsCount is 0,
the timed spawn decision never fires, whatever the elapsed time; hence
over any sequence of cycles with fileOpsCount = 0 throughout, no timed
food spawn occurs. -/
theorem no_spawn_without_fileops (elapsedSeq : List Int) (e : Int)
    (h : e ∈ elapsedSeq) : spawnDecision 0 e = false := rfl

/-- Witness for C6 at a concrete 1000-second elapsed time. -/
theorem no_spawn_without_fileops_witness :
    (1000000000000 : Int) ∈ ([0, 1000000000000] : List Int) ∧
    spawnDecision 0 1000000000000 = false :=
  ⟨by simp, no_spawn_without_fileops [0, 1000000000000] 1000000000000 (by simp)⟩

/-- Claim C9: the Sampled Metrics snapshot is rebuilt from scratch
every cycle — the result does not depend on the previous cycle's
snapshot, and any field whose map read fails (or whose map is absent)
is 0 for that cycle. -/
theorem metrics_rebuilt_each_cycle (prev prev' : SampledMetrics) (now : Nat)
    (rd : MapReads) :
    telemetryStep prev now rd = telemetryStep prev' now rd ∧
    (rd.execve = none → (telemetryStep prev now rd).execveCount = 0) ∧
    (rd.fileOps = none → (telemetryStep prev now rd).fileOpsCount = 0) ∧
    (rd.network = none → (telemetryStep prev now rd).networkCount = 0) ∧
    (rd.process = none → (telemetryStep prev now rd).processCount = 0) ∧
    (rd.ctxSwitch = none → (telemetryStep prev now rd).contextSwitchCount = 0) ∧
    (rd.rate = none → (telemetryStep prev now rd).eventRate = 0) := by
  refine ⟨rfl, ?_, ?_, ?_, ?_, ?_, ?_⟩ <;>
    intro h <;> simp [telemetryStep, sampleMetrics, h]

/-- Witness for C9: a cycle with every read failing yields a snapshot
with a zero field, regardless of a junk-filled previous snapshot. -/
theorem metrics_rebuilt_each_cycle_witness :
    MapReads.execve
      { execve := none, fileOps := none, network := none, process := none,
        ctxSwitch := none, rate := none } = none ∧
    (telemetryStep
      { execveCount := 7, fileOpsCount := 7, networkCount := 7, processCount := 7,
        contextSwitchCount := 7, eventRate := 7, lastUpdate := 7 } 3
      { execve := none, fileOps := none, network := none, process := none,
        ctxSwitch := none, rate := none }).execveCount = 0 :=
  ⟨rfl,
    (metrics_rebuilt_each_cycle
      { execveCount := 7, fileOpsCount := 7, networkCount := 7, processCount := 7,
        contextSwitchCount := 7, eventRate := 7, lastUpdate := 7 }
      { execveCount := 0, fileOpsCount := 0, networkCount := 0, processCount := 0,
        contextSwitchCount := 0, eventRate := 0, lastUpdate := 0 } 3
      { execve := none, fileOps := none, network := none, process := none,
        ctxSwitch := none, rate := none }).2.1 rfl⟩

/-- Claim C2 counterexample: the spec's pattern says the first firing
adds 1 (value 1 after N = 1), but from the initialised value 0 the code
takes the add-100 branch (0 is a multiple of 100), leaving 100. -/
theorem ctx_pattern_counterexample :
    (fireCtxN 1 initialState).ctxSwitch = 100 ∧ (100 : Nat) ≠ 1 := by decide

/-- Claim C2 amended: starting from 0 every firing takes the add-100
branch, so the counter after N firings is 100*N; at
N in {1, 99, 100, 101, 199, 200} the values are 100, 9900, 10000,
10100, 19900, 20000 — not the spec's add-1/add-100 pattern. -/
theorem ctx_value_after_firings :
    (fireCtxN 1 initialState).ctxSwitch = 100 ∧
    (fireCtxN 99 initialState).ctxSwitch = 9900 ∧
    (fireCtxN 100 initialState).ctxSwitch = 10000 ∧
    (fireCtxN 101 initialState).ctxSwitch = 10100 ∧
    (fireCtxN 199 initialState).ctxSwitch = 19900 ∧
    (fireCtxN 200 initialState).ctxSwitch = 20000 :=
  ⟨ctx_closed_form 1 (by decide), ctx_closed_form 99 (by decide),
   ctx_closed_form 100 (by decide), ctx_closed_form 101 (by decide),
   ctx_closed_form 199 (by decide), ctx_closed_form 200 (by decide)⟩

/-- Claim C10 counterexample: the counter does not stay a multiple of
100 forever — u64 wraparound breaks the pattern.  After
184467440737095517 firings the add-100 step wraps modulo 2^64 and the
counter is 84, which is neither a multiple of 100 nor 100*N. -/
theorem ctx_mult100_wrap_counterexample :
    (fireCtxN 184467440737095517 initialState).ctxSwitch = 84 ∧
    84 % 100 ≠ 0 ∧
    (84 : Nat) ≠ 100 * 184467440737095517 := by
  have h1 : 100 * 184467440737095516 < U64 := by decide
  have hv := ctx_closed_form 184467440737095516 h1
  refine ⟨?_, by decide, by decide⟩
  rw [show (184467440737095517 : Nat) = 184467440737095516 + 1 from by norm_num,
      fireCtxN_succ]
  unfold handle_context_switch
  rw [hv, if_pos (Nat.mul_mod_right 100 184467440737095516)]
  show (100 * 184467440737095516 + 100) % U64 = 84
  decide

/-- Claim C10 amended: starting from the initialised value 0, as long
as 100*N has not reached 2^64 the counter after N firings equals 100*N
and is an exact multiple of 100, so every firing in that regime adds
exactly 100 (the add-1 branch is never taken). -/
theorem ctx_always_add_100 (N : Nat) (h : 100 * N < U64) :
    (fireCtxN N initialState).ctxSwitch = 100 * N ∧
    (fireCtxN N initialState).ctxSwitch % 100 = 0 := by
  have hc := ctx_closed_form N h
  exact ⟨hc, by rw [hc]; exact Nat.mul_mod_right 100 N⟩

/-- Witness for C10 at N = 7. -/
theorem ctx_always_add_100_witness :
    100 * 7 < U64 ∧
    ((fireCtxN 7 initialState).ctxSwitch = 100 * 7 ∧
     (fireCtxN 7 initialState).ctxSwitch % 100 = 0) :=
  ⟨by decide, ctx_always_add_100 7 (by decide)⟩

/-- Claim C8 counterexample: counters live in u64 and wrap.  Along the
concrete firing sequence of length 2^64 the exec counter reaches
2^64 - 1 after 2^64 - 1 firings and the next firing wraps it to 0, a
decrease: the universal "never decreases" claim fails on the code. -/
theorem counter_wrap_counterexample :
    (fireExecveN 18446744073709551615 initialState).execve = 18446744073709551615 ∧
    fireExecveN 18446744073709551616 initialState
      = handle_execve 0 (fireExecveN 18446744073709551615 initialState) ∧
    (fireExecveN 18446744073709551616 initialState).execve = 0 ∧
    (0 : Nat) < 18446744073709551615 := by
  refine ⟨?_, ?_, ?_, by decide⟩
  · rw [execve_closed_form]
    decide
  · rw [show (18446744073709551616 : Nat) = 18446744073709551615 + 1 from by norm_num,
        fireExecveN_succ]
  · rw [execve_closed_form]
    decide

/-- Claim C8 amended: in the regime where no 64-bit wrap occurs, every
probe firing either leaves a counter unchanged or increases it — the
exec, file-open, network and fork probes add exactly 1 to their own
counter, the context-switch probe adds 100 or 1 to its own counter, and
every handler leaves the other four counters untouched. -/
theorem counters_monotone_no_wrap (t : Nat) (s : TracerState)
    (hex : s.execve + 1 < U64) (hfo : s.fileOps + 1 < U64)
    (hnw : s.network + 1 < U64) (hpr : s.process + 1 < U64)
    (hcs : s.ctxSwitch + 100 < U64) :
    (handle_execve t s).execve = s.execve + 1 ∧
    (handle_file_open t s).fileOps = s.fileOps + 1 ∧
    (handle_network_connect t s).network = s.network + 1 ∧
    (handle_process_fork t s).process = s.process + 1 ∧
    ((handle_context_switch s).ctxSwitch = s.ctxSwitch + 100 ∨
     (handle_context_switch s).ctxSwitch = s.ctxSwitch + 1) ∧
    s.ctxSwitch < (handle_context_switch s).ctxSwitch ∧
    ((handle_execve t s).fileOps = s.fileOps ∧
     (handle_execve t s).network = s.network ∧
     (handle_execve t s).process = s.process ∧
     (handle_execve t s).ctxSwitch = s.ctxSwitch) ∧
    ((handle_file_open t s).execve = s.execve ∧
     (handle_file_open t s).network = s.network ∧
     (handle_file_open t s).process = s.process ∧
     (handle_file_open t s).ctxSwitch = s.ctxSwitch) ∧
    ((handle_network_connect t s).execve = s.execve ∧
     (handle_network_connect t s).fileOps = s.fileOps ∧
     (handle_network_connect t s).process = s.process ∧
     (handle_network_connect t s).ctxSwitch = s.ctxSwitch) ∧
    ((handle_process_fork t s).execve = s.execve ∧
     (handle_process_fork t s).fileOps = s.fileOps ∧
     (handle_process_fork t s).network = s.network ∧
     (handle_process_fork t s).ctxSwitch = s.ctxSwitch) ∧
    ((handle_context_switch s).execve = s.execve ∧
     (handle_context_switch s).fileOps = s.fileOps ∧
     (handle_context_switch s).network = s.network ∧
     (handle_context_switch s).process = s.process) := by
  have hctx : (handle_context_switch s).ctxSwitch = s.ctxSwitch + 100 ∨
      (handle_context_switch s).ctxSwitch = s.ctxSwitch + 1 := by
    unfold handle_context_switch
    by_cases h100 : s.ctxSwitch % 100 = 0
    · left
      rw [if_pos h100]
      exact Nat.mod_eq_of_lt hcs
    · right
      rw [if_neg h100]
      exact Nat.mod_eq_of_lt (by omega)
  refine ⟨?_, ?_, ?_, ?_, hctx, ?_, ?_, ?_, ?_, ?_, ?_⟩
  · rw [handle_execve_counter]
    exact Nat.mod_eq_of_lt hex
  · refine Eq.trans ?_ (Nat.mod_eq_of_lt hfo)
    exact (inc_bucket_fields t { s with fileOps := (s.fileOps + 1) % U64 }).2.1
  · refine Eq.trans ?_ (Nat.mod_eq_of_lt hnw)
    exact (inc_bucket_fields t { s with network := (s.network + 1) % U64 }).2.2.1
  · refine Eq.trans ?_ (Nat.mod_eq_of_lt hpr)
    exact (inc_bucket_fields t { s with process := (s.process + 1) % U64 }).2.2.2.1
  · rcases hctx with h | h <;> omega
  · obtain ⟨he1, hf1, hn1, hp1, hc1, hr1⟩ :=
      inc_bucket_fields t { s with execve := (s.execve + 1) % U64 }
    obtain ⟨he2, hf2, hn2, hp2, hc2⟩ :=
      upd_rate_fields t (increment_event_bucket t { s with execve := (s.execve + 1) % U64 })
    exact ⟨hf2.trans hf1, hn2.trans hn1, hp2.trans hp1, hc2.trans hc1⟩
  · obtain ⟨he1, hf1, hn1, hp1, hc1, hr1⟩ :=
      inc_bucket_fields t { s with fileOps := (s.fileOps + 1) % U64 }
    exact ⟨he1, hn1, hp1, hc1⟩
  · obtain ⟨he1, hf1, hn1, hp1, hc1, hr1⟩ :=
      inc_bucket_fields t { s with network := (s.network + 1) % U64 }
    exact ⟨he1, hf1, hp1, hc1⟩
  · obtain ⟨he1, hf1, hn1, hp1, hc1, hr1⟩ :=
      inc_bucket_fields t { s with process := (s.process + 1) % U64 }
    exact ⟨he1, hf1, hn1, hc1⟩
  · unfold handle_context_switch
    split <;> exact ⟨rfl, rfl, rfl, rfl⟩

/-- Witness for C8 at the freshly initialised state. -/
theorem counters_monotone_no_wrap_witness :
    initialState.execve + 1 < U64 ∧
    (handle_execve 0 initialState).execve = initialState.execve + 1 :=
  ⟨by decide,
    (counters_monotone_no_wrap 0 initialState (by decide) (by decide)
      (by decide) (by decide) (by decide)).1⟩

/-- Claim C1 counterexample: main.go applies no ceiling clamp, and the
uint64-to-time.Duration conversion is a bit reinterpretation, so
execveCount = 2^64 - 2 yields the int64 -2, a reduction of -1 ms that
passes the 30 ms cap check, and a tick interval of 351 ms — above
baseInterval = 350 ms.  The claimed [100ms, baseInterval] range fails
for valid uint64 metric inputs. -/
theorem tick_ceiling_counterexample :
    newTickInterval 0 18446744073709551614 0 0 0 = 351000000 ∧
    baseInterval < newTickInterval 0 18446744073709551614 0 0 0 := by decide

/-- Claim C1 amended: in the overflow-free regime — every factor's
scaled metric below 2^63 ns, which covers all realistic counter
values — the computed tick interval lies in [100 ms, baseInterval] and
the computed spawn interval lies in [5000 ms, 15000 ms].  (Outside that
regime only the two floors are enforced by the code; the ceilings can
be exceeded, see the counterexample.) -/
theorem tick_spawn_interval_bounds (score ex pr ra cs fo : Nat)
    (hs : score * 1000000 < 9223372036854775808)
    (he : ex * 500000 < 9223372036854775808)
    (hp : pr / 3 * 1000000 < 9223372036854775808)
    (hr : ra * 1000000 < 9223372036854775808)
    (hc : cs / 1500 * 1000000 < 9223372036854775808)
    (hf : fo / 50 * 100000000 < 9223372036854775808) :
    100000000 ≤ newTickInterval score ex pr ra cs ∧
    newTickInterval score ex pr ra cs ≤ baseInterval ∧
    5000000000 ≤ spawnIntervalOf fo ∧
    spawnIntervalOf fo ≤ 15000000000 := by
  obtain ⟨hseq, hs0, hs1⟩ := scoreRed_range score hs
  obtain ⟨he0, he1⟩ := execRed_range ex he
  obtain ⟨hp0, hp1⟩ := processRed_range pr hp
  obtain ⟨hr0, hr1⟩ := rateRed_range ra hr
  obtain ⟨hc0, hc1⟩ := loadRed_range cs hc
  obtain ⟨hf0, hf1⟩ := fileOpsBonus_range fo hf
  clear hseq hs he hp hr hc hf
  set a := scoreSpeedReduction score with ha
  set b := execveSpeedReduction ex with hb
  set c := processSpeedReduction pr with hcq
  set d := rateSpeedReduction ra with hd
  set e := loadSpeedReduction cs with hee
  set f := fileOpsBonus fo with hff
  have w1 : wrap64 (350 * 1000000 - a) = 350 * 1000000 - a :=
    wrap64_eq_self (350 * 1000000 - a) (by omega) (by omega)
  have w2 : wrap64 (350 * 1000000 - a - b) = 350 * 1000000 - a - b :=
    wrap64_eq_self (350 * 1000000 - a - b) (by omega) (by omega)
  have w3 : wrap64 (350 * 1000000 - a - b - c) = 350 * 1000000 - a - b - c :=
    wrap64_eq_self (350 * 1000000 - a - b - c) (by omega) (by omega)
  have w4 : wrap64 (350 * 1000000 - a - b - c - d)
      = 350 * 1000000 - a - b - c - d :=
    wrap64_eq_self (350 * 1000000 - a - b - c - d) (by omega) (by omega)
  have w5 : wrap64 (350 * 1000000 - a - b - c - d - e)
      = 350 * 1000000 - a - b - c - d - e :=
    wrap64_eq_self (350 * 1000000 - a - b - c - d - e) (by omega) (by omega)
  have w6 : wrap64 (15 * 1000000000 - f) = 15 * 1000000000 - f :=
    wrap64_eq_self (15 * 1000000000 - f) (by omega) (by omega)
  have htick : newTickInterval score ex pr ra cs
      = if 350 * 1000000 - a - b - c - d - e < 100 * 1000000 then 100 * 1000000
        else 350 * 1000000 - a - b - c - d - e := by
    unfold newTickInterval baseInterval NS_PER_MS
    rw [← ha, ← hb, ← hcq, ← hd, ← hee]
    rw [w1, w2, w3, w4, w5]
  have hspawn : spawnIntervalOf fo
      = if 15 * 1000000000 - f < 5 * 1000000000 then 5 * 1000000000
        else 15 * 1000000000 - f := by
    unfold spawnIntervalOf NS_PER_S
    rw [← hff]
    rw [w6]
  rw [htick, hspawn]
  unfold baseInterval NS_PER_MS
  clear w1 w2 w3 w4 w5 w6 htick hspawn
  refine ⟨?_, ?_, ?_, ?_⟩ <;> split <;> omega

/-- Witness for C1 with the spec's own end-to-end scenario metrics
(score 5, exec 10, process 3, rate 2, context-switch 1500) plus
fileOps 100. -/
theorem tick_spawn_interval_bounds_witness :
    (5 * 1000000 < 9223372036854775808 ∧
     10 * 500000 < 9223372036854775808 ∧
     3 / 3 * 1000000 < 9223372036854775808 ∧
     2 * 1000000 < 9223372036854775808 ∧
     1500 / 1500 * 1000000 < 9223372036854775808 ∧
     100 / 50 * 100000000 < 9223372036854775808) ∧
    (100000000 ≤ newTickInterval 5 10 3 2 1500 ∧
     newTickInterval 5 10 3 2 1500 ≤ baseInterval ∧
     5000000000 ≤ spawnIntervalOf 100 ∧
     spawnIntervalOf 100 ≤ 15000000000) :=
  ⟨by decide,
    tick_spawn_interval_bounds 5 10 3 2 1500 100 (by decide) (by decide)
      (by decide) (by decide) (by decide) (by decide)⟩

/-- Claim C4: from a fresh tracer, firing the exec probe twice within
the same wall-clock second t leaves Rate = 2 after the second firing's
update; firing once at second t and again at second t + 11 leaves
Rate = 1 — the new second's bucket count, not an accumulation with the
old bucket. -/
theorem rate_estimator_scenarios (t : Nat) (h10 : 10 ≤ t)
    (hU : t + 11 < U64) :
    (handle_execve (t * 1000000000)
      (handle_execve (t * 1000000000) initialState)).rate = 2 ∧
    (handle_execve ((t + 11) * 1000000000)
      (handle_execve (t * 1000000000) initialState)).rate = 1 := by
  have hU64 : U64 = 18446744073709551616 := rfl
  have hdel1 : (t + (U64 - 10)) % U64 = t - 10 := by
    rw [hU64] at hU ⊢
    omega
  have hdel2 : (t + 11 + (U64 - 10)) % U64 = t + 1 := by
    rw [hU64] at hU ⊢
    omega
  have hne1 : ¬ (t = t - 10) := by omega
  have hne2 : ¬ (t = t + 11) := by omega
  have hne3 : ¬ (t + 11 = t + 1) := by omega
  have hne4 : ¬ (t = t + 1) := by omega
  have e1 : handle_execve (t * 1000000000) initialState
      = { execve := 1, fileOps := 0, network := 0, process := 0, ctxSwitch := 0,
          rate := 1, buckets := [(t, 1)] } := by
    unfold handle_execve increment_event_bucket update_event_rate
    simp only [initialState, ns_to_sec, bucketLookup, bucketDelete, List.length_nil,
      hdel1]
    norm_num [U64, hne1]
  have e2 : handle_execve (t * 1000000000)
      { execve := 1, fileOps := 0, network := 0, process := 0, ctxSwitch := 0,
        rate := 1, buckets := [(t, 1)] }
      = { execve := 2, fileOps := 0, network := 0, process := 0, ctxSwitch := 0,
          rate := 2, buckets := [(t, 2)] } := by
    unfold handle_execve increment_event_bucket update_event_rate
    simp only [ns_to_sec, bucketLookup, bucketReplace, bucketDelete, hdel1]
    norm_num [U64, hne1]
  have e3 : handle_execve ((t + 11) * 1000000000)
      { execve := 1, fileOps := 0, network := 0, process := 0, ctxSwitch := 0,
        rate := 1, buckets := [(t, 1)] }
      = { execve := 2, fileOps := 0, network := 0, process := 0, ctxSwitch := 0,
          rate := 1, buckets := [(t + 11, 1), (t, 1)] } := by
    unfold handle_execve increment_event_bucket update_event_rate
    simp only [ns_to_sec, bucketLookup, bucketReplace, bucketDelete, hdel2,
      List.length_cons, List.length_nil]
    norm_num [U64, hne2, hne3, hne4]
    simp [bucketLookup, bucketDelete, hne3, hne4]
  rw [e1, e2, e3]
  exact ⟨rfl, rfl⟩

/-- Witness for C4 at wall-clock second 100. -/
theorem rate_estimator_scenarios_witness :
    10 ≤ 100 ∧ 100 + 11 < U64 ∧
    ((handle_execve (100 * 1000000000)
        (handle_execve (100 * 1000000000) initialState)).rate = 2 ∧
     (handle_execve ((100 + 11) * 1000000000)
        (handle_execve (100 * 1000000000) initialState)).rate = 1) :=
  ⟨by decide, by decide, rate_estimator_scenarios 100 (by decide) (by decide)⟩

/-- Claim C7: kprobe attachment is best-effort per event class — each
class tries its ordered candidate list and binds the first symbol that
attaches (everything listed before it failed); a class with no
successful candidate contributes nothing and its removal does not
change the outcome (silently skipped, non-fatal); and the operation
returns the error outcome exactly when no class at all attaches. -/
theorem attach_best_effort (present : EventClass → Bool) (ok : String → Bool) :
    (attachAllKprobes present ok = none ↔
      ∀ c : EventClass, present c = true →
        firstAttachable ok (probeCandidates c) = none) ∧
    (∀ c : EventClass, ∀ n : String,
      firstAttachable ok (probeCandidates c) = some n →
        ok n = true ∧ ∃ l1 l2, probeCandidates c = l1 ++ n :: l2 ∧
          ∀ m ∈ l1, ok m = false) ∧
    (∀ c : EventClass, firstAttachable ok (probeCandidates c) = none →
      attachAllKprobes present ok
        = attachAllKprobes (fun d => if d = c then false else present d) ok) := by
  refine ⟨?_, ?_, ?_⟩
  · constructor
    · intro hnone c hc
      unfold attachAllKprobes at hnone
      dsimp only at hnone
      by_cases hemp : (classList.filterMap fun d =>
          if present d then firstAttachable ok (probeCandidates d) else none) = []
      · have := (filterMap_nil_iff _ _).mp hemp c (mem_classList c)
        rwa [if_pos hc] at this
      · rw [if_neg hemp] at hnone
        exact absurd hnone (by simp)
    · intro hall
      unfold attachAllKprobes
      dsimp only
      have hemp : (classList.filterMap fun d =>
          if present d then firstAttachable ok (probeCandidates d) else none) = [] := by
        refine (filterMap_nil_iff _ _).mpr ?_
        intro d _
        by_cases hp : present d
        · rw [if_pos hp]
          exact hall d hp
        · rw [if_neg hp]
      rw [if_pos hemp]
  · intro c n h
    exact firstAttachable_eq_some ok _ n h
  · intro c hnone
    unfold attachAllKprobes
    dsimp only
    have hagree : ∀ d ∈ classList,
        (if present d then firstAttachable ok (probeCandidates d) else none)
          = (if (if d = c then false else present d) then
              firstAttachable ok (probeCandidates d) else none) := by
      intro d _
      by_cases hdc : d = c
      · subst hdc
        by_cases hp : present d <;> simp [hp, hnone]
      · simp [hdc]
    rw [filterMap_agree _ _ classList hagree]

/-- Witness for C7: with only tcp_v6_connect resolvable, the network
class binds its second candidate after the first fails. -/
theorem attach_best_effort_witness :
    firstAttachable (fun n => n == "tcp_v6_connect")
      (probeCandidates EventClass.network) = some "tcp_v6_connect" ∧
    (("tcp_v6_connect" == "tcp_v6_connect") = true ∧
      ∃ l1 l2, probeCandidates EventClass.network
          = l1 ++ "tcp_v6_connect" :: l2 ∧
        ∀ m ∈ l1, (m == "tcp_v6_connect") = false) :=
  ⟨by decide,
    (attach_best_effort (fun _ => true) (fun n => n == "tcp_v6_connect")).2.1
      EventClass.network "tcp_v6_connect" (by decide)⟩
